import Mathlib

/-!
Shallow embedding of the pipe-network flow solver in `src/HW6_2_2_OOP.py`.

Modelling conventions:

* Python floats are idealized as exact rationals (`ℚ`); numeric literals such
  as `0.2`, `9.81`, `0.00089`, `0.00025` become the exact fractions `1/5`,
  `981/100`, `89/100000`, `1/4000`.  `math.pi` is rendered as the IEEE-754
  double the program actually uses, the rational `884279719003555 / 2^48`.
* External numeric routines are uninterpreted parameters gathered in `NumEnv`:
  `colebrook rr Re` is the value `fsolve(cb, [0.01])[0]` returned by scipy for
  the Colebrook-White residual built from relative roughness `rr` and Reynolds
  number `Re`; `colebrookConverged rr Re` is the convergence flag scipy would
  report via `full_output` (the source never requests or reads it);
  `normalSample mean sig` is the value drawn by `rnd.normalvariate(mean, sig)`
  (comparing two environments that differ only in this field compares two
  executions whose global random streams differ); `fsolve` is the top-level
  multivariate root-finder driver.
* Python object references are modelled as indices: `Node.pipes` and
  `Loop.pipes` hold indices into the owning network's pipe list, so a write to
  `pipes[i].Q` by the solver is seen by every node and loop, as in the source.
  An out-of-range index stands for a reference Python could not build; the
  fallback `dummyPipe` is never exercised by the theorems below.
* `Pipe.reynolds` is written by `Re()` (and by the constructor) but never read
  by any code in the source, so the field is omitted; `Pipe.Re` is the value
  the method `Re()` returns, computed — exactly as in the source — from the
  *cached* attribute `vel`.  `vel` is a genuine field: the source writes it
  only inside `V()`, and `V()` is called only by the constructor.
-/

namespace HW6

/-- The IEEE-754 double value of `math.pi`. -/
def piQ : ℚ := 884279719003555 / 281474976710656

/-- Python's `<` on strings: lexicographic comparison of code points.  This
executable form is kernel-reducible; `strLtb_iff_lt` below shows it agrees
with the standard strict order on `String`. -/
def strLtb : List Char → List Char → Bool
  | [], [] => false
  | [], _ :: _ => true
  | _ :: _, [] => false
  | c :: cs, d :: ds =>
      if c.toNat < d.toNat then true
      else if d.toNat < c.toNat then false
      else strLtb cs ds

/-- Python's `min` on two strings (`min(a, b)` returns `a` when `a <= b`). -/
def pyMin (s t : String) : String := if strLtb t.data s.data then t else s

/-- Python's `max` on two strings. -/
def pyMax (s t : String) : String := if strLtb t.data s.data then s else t

/-- `Fluid`: dynamic viscosity `mu` (Pa·s), density `rho` (kg/m³), derived
kinematic viscosity `nu = mu / rho`. -/
structure Fluid where
  mu : ℚ
  rho : ℚ
  nu : ℚ

/-- `Fluid.__init__(mu, rho)`. -/
def mkFluid (mu : ℚ) (rho : ℚ) : Fluid :=
  { mu := mu, rho := rho, nu := mu / rho }

/-- The default `Fluid()` (water): `mu = 0.00089`, `rho = 1000`. -/
def defaultFluid : Fluid := mkFluid (89 / 100000) 1000

/-- Uninterpreted external numeric routines (see the module docstring). -/
structure NumEnv where
  colebrook : ℚ → ℚ → ℚ
  colebrookConverged : ℚ → ℚ → Bool
  normalSample : ℚ → ℚ → ℚ
  fsolve : (List ℚ → List ℚ) → List ℚ → List ℚ

/-- `Pipe`: attributes set by `Pipe.__init__` and mutated afterwards.
`diameter` is in meters (the constructor argument `D` is in millimeters),
`A` is the cross-sectional area, `Q` the current flow in L/s, `vel` the
cached velocity attribute. -/
structure Pipe where
  startNode : String
  endNode : String
  length : ℚ
  diameter : ℚ
  r : ℚ
  fluid : Fluid
  A : ℚ
  Q : ℚ
  vel : ℚ

/-- `Pipe.V()`: recomputes the velocity from `Q` (L/s converted to m³/s) and
the cross-section; the source both stores it in `self.vel` and returns it. -/
def Pipe.V (p : Pipe) : ℚ × Pipe :=
  let v := (p.Q / 1000) / p.A
  (v, { p with vel := v })

/-- `Pipe.__init__(Start, End, L, D, r, fluid)`: endpoints are canonicalized
with `min`/`max` over node-name strings, `D` (mm) is converted to meters,
`A = pi (d/2)^2`, the initial guess `Q = 10` L/s is stored, and `vel` is
initialized by calling `V()`. -/
def mkPipe (s1 s2 : String) (L D r : ℚ) (fluid : Fluid) : Pipe :=
  let d := D / 1000
  let p0 : Pipe :=
    { startNode := pyMin s1 s2
      endNode := pyMax s1 s2
      length := L
      diameter := d
      r := r
      fluid := fluid
      A := piQ * (d / 2) ^ 2
      Q := 10
      vel := 0 }
  (Pipe.V p0).2

/-- `Pipe.Re()`: the returned Reynolds number, `rho * vel * d / mu`, computed
from the cached `vel` attribute (the source stores the result in the
write-only attribute `reynolds`, omitted here). -/
def Pipe.Re (p : Pipe) : ℚ :=
  (p.fluid.rho * p.vel * p.diameter) / p.fluid.mu

/-- `Pipe.FrictionFactor()`: three-regime dispatch on `Re()`.  `CB()` is the
scipy root-solve `fsolve(cb, [0.01])[0]`, modelled by `env.colebrook`; the
transition branch draws `rnd.normalvariate(mean, sig)`, modelled by
`env.normalSample`.  `0.2` is the exact fraction `1/5`. -/
def Pipe.FrictionFactor (env : NumEnv) (p : Pipe) : ℚ :=
  let Re := Pipe.Re p
  let rr := p.r / p.diameter
  if Re ≥ 4000 then env.colebrook rr Re
  else if Re ≤ 2000 then 64 / Re
  else
    let CBff := env.colebrook rr Re
    let Lamff := 64 / Re
    let mean := Lamff + ((Re - 2000) / (4000 - 2000)) * (CBff - Lamff)
    let sig := (1 / 5) * mean
    env.normalSample mean sig

/-- `Pipe.frictionHeadLoss()`: Darcy-Weisbach with `g = 9.81 = 981/100`,
using the cached `vel` attribute. -/
def Pipe.frictionHeadLoss (env : NumEnv) (p : Pipe) : ℚ :=
  let g : ℚ := 981 / 100
  let ff := Pipe.FrictionFactor env p
  (ff * p.length / p.diameter) * (p.vel ^ 2 / (2 * g))

/-- `Pipe.getFlowHeadLoss(s)`: traversal sign times flow sign times the
Darcy-Weisbach head loss. -/
def Pipe.getFlowHeadLoss (env : NumEnv) (p : Pipe) (s : String) : ℚ :=
  let nTraverse : ℚ := if s = p.startNode then 1 else -1
  let nFlow : ℚ := if p.Q ≥ 0 then 1 else -1
  nTraverse * nFlow * Pipe.frictionHeadLoss env p

/-- `Pipe.Name()`: the f-string `'{startNode}-{endNode}'`. -/
def Pipe.Name (p : Pipe) : String :=
  p.startNode ++ "-" ++ p.endNode

/-- `Pipe.oContainsNode(node)`. -/
def Pipe.oContainsNode (p : Pipe) (node : String) : Bool :=
  p.startNode = node ∨ p.endNode = node

/-- `Pipe.getFlowIntoNode(n)`: `-Q` at the start node, `+Q` otherwise. -/
def Pipe.getFlowIntoNode (p : Pipe) (n : String) : ℚ :=
  if n = p.startNode then -p.Q else p.Q

/-- A stand-in for a dangling pipe reference (see the module docstring);
built like the Python default pipe `Pipe('A','B',100,200,0.00025,Fluid())`. -/
def dummyPipe : Pipe := mkPipe "A" "B" 100 200 (1 / 4000) defaultFluid

/-- `Node`: name, references to incident pipes (indices into the owning
network's pipe list), and external flow in L/s. -/
structure Node where
  name : String
  pipes : List ℕ
  extFlow : ℚ

/-- `Node.getNetFlowRate()`: external flow plus the flows into the node from
each incident pipe, each converted from L/s to m³/s. -/
def Node.getNetFlowRate (pipes : List Pipe) (n : Node) : ℚ :=
  n.extFlow / 1000 +
    (n.pipes.map (fun i => (pipes.getD i dummyPipe).getFlowIntoNode n.name / 1000)).sum

/-- `Loop`: name and the ordered pipe references of the cycle (indices into
the owning network's pipe list). -/
structure Loop where
  name : String
  pipes : List ℕ

/-- The pipe objects a loop's references resolve to. -/
def loopPipes (pipes : List Pipe) (l : Loop) : List Pipe :=
  l.pipes.map (fun i => pipes.getD i dummyPipe)

/-- The traversal fold inside `Loop.getLoopHeadLoss()`: accumulate
`p.getFlowHeadLoss(startNode)`, then
`startNode = p.endNode if startNode != p.endNode else p.startNode`. -/
def lhlAux (env : NumEnv) : String → List Pipe → ℚ
  | _, [] => 0
  | s, p :: ps =>
      Pipe.getFlowHeadLoss env p s +
        lhlAux env (if s ≠ p.endNode then p.endNode else p.startNode) ps

/-- `Loop.getLoopHeadLoss()`: start at `self.pipes[0].startNode` and fold the
traversal over the stored pipe order (an empty loop would raise `IndexError`
in Python; the `headD` fallback is never exercised by the theorems). -/
def Loop.getLoopHeadLoss (env : NumEnv) (pipes : List Pipe) (l : Loop) : ℚ :=
  let lp := loopPipes pipes l
  lhlAux env (lp.headD dummyPipe).startNode lp

/-- `PipeNetwork`: the owning collections and the fluid. -/
structure PipeNetwork where
  pipes : List Pipe
  loops : List Loop
  nodes : List Node
  fluid : Fluid

/-- The flow-vector write in `fn`: `self.pipes[i].Q = q[i]` for each `i` below
`len(self.pipes)`.  When `q` is shorter than the pipe list Python would raise
`IndexError`; the theorems only use the total cases. -/
def setFlows : List Pipe → List ℚ → List Pipe
  | [], _ => []
  | ps, [] => ps
  | p :: ps, qi :: qs => { p with Q := qi } :: setFlows ps qs

/-- `PipeNetwork.getNodeFlowRates()` evaluated on a pipe heap `pipes`. -/
def PipeNetwork.getNodeFlowRates (net : PipeNetwork) (pipes : List Pipe) : List ℚ :=
  net.nodes.map (Node.getNetFlowRate pipes)

/-- `PipeNetwork.getLoopHeadLosses()` evaluated on a pipe heap `pipes`. -/
def PipeNetwork.getLoopHeadLosses (env : NumEnv) (net : PipeNetwork) (pipes : List Pipe) : List ℚ :=
  net.loops.map (Loop.getLoopHeadLoss env pipes)

/-- The residual closure `fn(q)` inside `findFlowRates`: write the trial
vector into the pipes, then return the node flow rates followed by the loop
head losses (`L = getNodeFlowRates(); L += getLoopHeadLosses()`). -/
def PipeNetwork.fn (env : NumEnv) (net : PipeNetwork) (q : List ℚ) : List ℚ :=
  let pipes := setFlows net.pipes q
  net.getNodeFlowRates pipes ++ net.getLoopHeadLosses env pipes

/-- `PipeNetwork.findFlowRates()`: `N = len(nodes) + len(loops)`, uniform
initial guess `10`, and one unconditional call to the root-finder. -/
def PipeNetwork.findFlowRates (env : NumEnv) (net : PipeNetwork) : List ℚ :=
  let N := net.nodes.length + net.loops.length
  let Q0 := List.replicate N (10 : ℚ)
  env.fsolve (PipeNetwork.fn env net) Q0

/-! ### Spec-side loop-traversal definitions (for the refinement claim C5)

These follow the specification's words, to be compared with the source-derived
`Loop.getLoopHeadLoss` above. -/

/-- Follows the spec's words: `signedHeadLoss(traversalStartNode)` is
`headLossMagnitude() × traversalSign × flowSign`, with `traversalSign = +1`
iff the traversal node equals `endpointA` and `flowSign = +1` iff
`currentFlow ≥ 0`; `headLossMagnitude` is the Darcy-Weisbach magnitude,
i.e. the source's `frictionHeadLoss`. -/
def signedHeadLossSpec (env : NumEnv) (p : Pipe) (s : String) : ℚ :=
  Pipe.frictionHeadLoss env p * (if s = p.startNode then 1 else -1) *
    (if p.Q ≥ 0 then 1 else -1)

/-- Follows the spec's words: advance the traversal node to whichever of the
pipe's two endpoints is not the current traversal node.  (When the cursor is
at neither endpoint the wording determines no endpoint; this formalisation
picks `endpointB` there, and C5's theorem shows the source agrees with the
rule on every input.) -/
def advanceSpec (p : Pipe) (s : String) : String :=
  if s = p.startNode then p.endNode
  else if s = p.endNode then p.startNode
  else p.endNode

/-- The spec-side traversal fold. -/
def netHeadLossSpecAux (env : NumEnv) : String → List Pipe → ℚ
  | _, [] => 0
  | s, p :: ps => signedHeadLossSpec env p s + netHeadLossSpecAux env (advanceSpec p s) ps

/-- Follows the spec's words: start at the canonical start node of the loop's
first pipe and fold `signedHeadLoss`/advance over the stored pipe order. -/
def netHeadLossSpec (env : NumEnv) (pipes : List Pipe) (l : Loop) : ℚ :=
  let lp := loopPipes pipes l
  netHeadLossSpecAux env (lp.headD dummyPipe).startNode lp

/-! ### Python default-argument semantics (for C10)

Python evaluates a `def`'s default-argument expressions once, at function
definition time; every call that omits the argument then receives a reference
to that same object.  The source's `Node.__init__(self, Name='a', Pipes=[],
ExtFlow=0)`, `Loop.__init__(self, Name='A', Pipes=[])` and
`PipeNetwork.__init__(self, Pipes=[], Loops=[], Nodes=[], fluid=Fluid())`
therefore share one list object per default across all default-constructed
instances.  Lists are modelled as heap cells holding indices; a `PyStore`
gives each cell's current contents, and cells 0–4 are the five module-level
default list objects. -/

def PyStore : Type := ℕ → List ℕ

def emptyStore : PyStore := fun _ => []

/-- In-place `list.append` on the list object in cell `c`. -/
def appendCell (st : PyStore) (c x : ℕ) : PyStore :=
  fun c2 => if c2 = c then st c ++ [x] else st c2

/-- Reading the contents a reference currently sees. -/
def readCell (st : PyStore) (c : ℕ) : List ℕ := st c

/-- The single list object created for `Node.__init__`'s `Pipes=[]`. -/
def nodeDefaultPipesCell : ℕ := 0

/-- The single list object created for `Loop.__init__`'s `Pipes=[]`. -/
def loopDefaultPipesCell : ℕ := 1

/-- The list objects created for `PipeNetwork.__init__`'s defaults. -/
def netDefaultPipesCell : ℕ := 2

def netDefaultLoopsCell : ℕ := 3

def netDefaultNodesCell : ℕ := 4

/-- A `Node` as an object holding a reference to its pipes list. -/
structure NodeObj where
  name : String
  pipesCell : ℕ
  extFlow : ℚ

/-- `Node(name)` — constructed without an explicit `Pipes` argument: the
instance receives a reference to the one shared default list object. -/
def NodeObj.mkDefault (nm : String) : NodeObj :=
  { name := nm, pipesCell := nodeDefaultPipesCell, extFlow := 0 }

/-- A `Loop` as an object holding a reference to its pipes list. -/
structure LoopObj where
  name : String
  pipesCell : ℕ

/-- `Loop(name)` — constructed without an explicit `Pipes` argument. -/
def LoopObj.mkDefault (nm : String) : LoopObj :=
  { name := nm, pipesCell := loopDefaultPipesCell }

/-- A `PipeNetwork` as an object holding references to its collections. -/
structure NetObj where
  pipesCell : ℕ
  loopsCell : ℕ
  nodesCell : ℕ

/-- `PipeNetwork()` — constructed without explicit collection arguments:
every such instance receives references to the same three default lists. -/
def NetObj.mkDefault : NetObj :=
  { pipesCell := netDefaultPipesCell
    loopsCell := netDefaultLoopsCell
    nodesCell := netDefaultNodesCell }

/-! ### Concrete instances used by witnesses and counterexamples -/

/-- An environment whose Colebrook solve returns `0.02` and whose
`normalvariate` draw happens to return the mean; the driver performs one
residual evaluation at the initial guess. -/
def envDet : NumEnv :=
  { colebrook := fun _ _ => 1 / 50
    colebrookConverged := fun _ _ => true
    normalSample := fun m _ => m
    fsolve := fun f x0 => f x0 }

/-- Same external routines as `envDet` except for the random stream: here
`normalvariate(mean, sig)` returns `mean + sig` (a draw one standard
deviation above the mean). -/
def envRand : NumEnv :=
  { envDet with normalSample := fun m s => m + s }

/-- An environment in which the Colebrook root-solve fails: scipy's
convergence flag is false and the returned iterate `100` is not a root. -/
def envFail : NumEnv :=
  { colebrook := fun _ _ => 100
    colebrookConverged := fun _ _ => false
    normalSample := fun m _ => m
    fsolve := fun _ x0 => x0 }

/-- `envDet` with the (unobserved) Colebrook convergence flag flipped to
"failed"; the Colebrook value and random draw are unchanged. -/
def envDetNoConv : NumEnv :=
  { envDet with colebrookConverged := fun _ _ => false }

/-- `Pipe('a','b',100,200,0.00025,Fluid())`: water, construction-time
Reynolds number ≈ 71530 (turbulent). -/
def pDef : Pipe := mkPipe "a" "b" 100 200 (1 / 4000) defaultFluid

/-- `pDef` after the solver writes the trial flow `20` (as `fn` does). -/
def p20 : Pipe := { pDef with Q := 20 }

/-- `pDef` with reversed flow `-10` written and the velocity recomputed by
`V()`: its cached velocity is negative. -/
def pNeg : Pipe := (Pipe.V { pDef with Q := -10 }).2

/-- `Fluid(0.02, 1000)`. -/
def fluidTrans : Fluid := mkFluid (1 / 50) 1000

/-- `Pipe('a','b',100,200,0.00025,Fluid(0.02,1000))`: construction-time
Reynolds number `10000/pi` ≈ 3183, inside the transition band. -/
def pTrans : Pipe := mkPipe "a" "b" 100 200 (1 / 4000) fluidTrans

/-- A fluid chosen so the construction-time Reynolds number is exactly 2000. -/
def fluidLam : Fluid := mkFluid (1 / (10 * piQ)) 1000

/-- A pipe whose `Re()` is exactly 2000 (laminar boundary). -/
def pLam : Pipe := mkPipe "a" "b" 100 200 (1 / 4000) fluidLam

/-- A one-pipe, one-loop network containing the transition-regime pipe. -/
def netTrans : PipeNetwork :=
  { pipes := [pTrans], loops := [{ name := "A", pipes := [0] }], nodes := [], fluid := fluidTrans }

/-- Two nodes joined by two parallel `a`–`b` pipes and one loop; external
flows `+20` at `a` and `-20` at `b` balance the uniform flows exactly. -/
def netLoop : PipeNetwork :=
  { pipes := [pDef, pDef]
    loops := [{ name := "A", pipes := [0, 1] }]
    nodes := [{ name := "a", pipes := [0, 1], extFlow := 20 },
              { name := "b", pipes := [0, 1], extFlow := -20 }]
    fluid := defaultFluid }

/-- A mismatched network: 1 pipe but 2 nodes + 0 loops. -/
def netMis : PipeNetwork :=
  { pipes := [pDef]
    loops := []
    nodes := [{ name := "a", pipes := [0], extFlow := 10 },
              { name := "b", pipes := [0], extFlow := -10 }]
    fluid := defaultFluid }

/-! ### Helper lemmas -/

theorem char_lt_iff (c d : Char) : c < d ↔ c.toNat < d.toNat :=
  ⟨fun h => h, fun h => h⟩

theorem strLtb_iff_lex : ∀ cs ds : List Char, strLtb cs ds = true ↔ List.Lex (· < ·) cs ds := by
  intro cs
  induction cs with
  | nil =>
      intro ds
      cases ds with
      | nil =>
          simp only [strLtb, Bool.false_eq_true, false_iff]
          intro h
          exact List.Lex.not_nil_right _ _ h
      | cons d ds =>
          simp only [strLtb, true_iff]
          exact List.Lex.nil
  | cons c cs ih =>
      intro ds
      cases ds with
      | nil =>
          simp only [strLtb, Bool.false_eq_true, false_iff]
          intro h
          exact List.Lex.not_nil_right _ _ h
      | cons d ds =>
          by_cases h1 : c.toNat < d.toNat
          · simp only [strLtb, h1, if_true, true_iff]
            exact List.Lex.rel ((char_lt_iff c d).mpr h1)
          · by_cases h2 : d.toNat < c.toNat
            · simp only [strLtb, h1, h2, if_false, if_true, Bool.false_eq_true, false_iff]
              intro h
              cases h with
              | cons h => exact absurd h2 (lt_irrefl _)
              | rel h => exact h1 ((char_lt_iff c d).mp h)
            · have hcd : c = d :=
                le_antisymm (le_of_not_lt fun h => h2 ((char_lt_iff d c).mp h))
                  (le_of_not_lt fun h => h1 ((char_lt_iff c d).mp h))
              subst hcd
              simp only [strLtb, h1, h2, if_false]
              rw [ih ds]
              constructor
              · intro h
                exact List.Lex.cons h
              · intro h
                cases h with
                | cons h => exact h
                | rel h => exact absurd ((char_lt_iff c c).mp h) h1

/-- The executable Python string comparison agrees with the standard strict
order on `String`. -/
theorem strLtb_iff_lt (s t : String) : strLtb s.data t.data = true ↔ s < t := by
  rw [String.lt_iff_toList_lt]
  exact strLtb_iff_lex s.data t.data

theorem pyMin_lt_pyMax (s t : String) (h : s ≠ t) : pyMin s t < pyMax s t := by
  unfold pyMin pyMax
  by_cases hb : strLtb t.data s.data = true
  · rw [if_pos hb, if_pos hb]
    exact (strLtb_iff_lt t s).mp hb
  · rw [if_neg hb, if_neg hb]
    have hts : ¬ t < s := fun hlt => hb ((strLtb_iff_lt t s).mpr hlt)
    exact lt_of_le_of_ne (not_lt.mp hts) h

theorem pyMin_comm (s t : String) : pyMin s t = pyMin t s := by
  unfold pyMin
  by_cases hb : strLtb t.data s.data = true
  · by_cases hb2 : strLtb s.data t.data = true
    · exact absurd ((strLtb_iff_lt t s).mp hb) (not_lt.mpr (le_of_lt ((strLtb_iff_lt s t).mp hb2)))
    · rw [if_pos hb, if_neg hb2]
  · by_cases hb2 : strLtb s.data t.data = true
    · rw [if_neg hb, if_pos hb2]
    · rw [if_neg hb, if_neg hb2]
      have hts : ¬ t < s := fun hlt => hb ((strLtb_iff_lt t s).mpr hlt)
      have hst : ¬ s < t := fun hlt => hb2 ((strLtb_iff_lt s t).mpr hlt)
      exact le_antisymm (not_lt.mp hts) (not_lt.mp hst)

theorem pyMax_comm (s t : String) : pyMax s t = pyMax t s := by
  unfold pyMax
  by_cases hb : strLtb t.data s.data = true
  · by_cases hb2 : strLtb s.data t.data = true
    · exact absurd ((strLtb_iff_lt t s).mp hb) (not_lt.mpr (le_of_lt ((strLtb_iff_lt s t).mp hb2)))
    · rw [if_pos hb, if_neg hb2]
  · by_cases hb2 : strLtb s.data t.data = true
    · rw [if_neg hb, if_pos hb2]
    · rw [if_neg hb, if_neg hb2]
      have hts : ¬ t < s := fun hlt => hb ((strLtb_iff_lt t s).mpr hlt)
      have hst : ¬ s < t := fun hlt => hb2 ((strLtb_iff_lt s t).mpr hlt)
      exact le_antisymm (not_lt.mp hst) (not_lt.mp hts)

/-- The source's cursor-advance expression agrees everywhere with the spec's
advance rule. -/
theorem advance_agrees (p : Pipe) (s : String) :
    (if s ≠ p.endNode then p.endNode else p.startNode) = advanceSpec p s := by
  unfold advanceSpec
  by_cases h2 : s = p.endNode
  · rw [if_neg (fun hc => hc h2), if_pos h2]
    by_cases h1 : s = p.startNode
    · rw [if_pos h1, ← h1, ← h2]
    · rw [if_neg h1]
  · rw [if_pos h2]
    by_cases h1 : s = p.startNode
    · rw [if_pos h1]
    · rw [if_neg h1, if_neg h2]

theorem getFlowHeadLoss_agrees (env : NumEnv) (p : Pipe) (s : String) :
    Pipe.getFlowHeadLoss env p s = signedHeadLossSpec env p s := by
  unfold Pipe.getFlowHeadLoss signedHeadLossSpec
  ring

theorem lhlAux_agrees (env : NumEnv) :
    ∀ (ps : List Pipe) (s : String), lhlAux env s ps = netHeadLossSpecAux env s ps := by
  intro ps
  induction ps with
  | nil => intro s; rfl
  | cons p ps ih =>
      intro s
      unfold lhlAux netHeadLossSpecAux
      rw [getFlowHeadLoss_agrees, advance_agrees, ih]

/-! ### The claims -/

/-- C5: for every loop, `getLoopHeadLoss()` starts the traversal at the
canonical start node of the loop's first pipe and, for each pipe in stored
order, adds that pipe's signed head loss — head-loss magnitude times the
traversal sign (+1 iff the cursor equals `endpointA`) times the flow sign
(+1 iff `currentFlow ≥ 0`) — then advances the cursor to whichever of the
pipe's two endpoints is not the current cursor: the source function equals
the traversal described by the spec. -/
theorem C5_loop_traversal_follows_spec (env : NumEnv) (pipes : List Pipe) (l : Loop) :
    Loop.getLoopHeadLoss env pipes l = netHeadLossSpec env pipes l := by
  unfold Loop.getLoopHeadLoss netHeadLossSpec
  exact lhlAux_agrees env (loopPipes pipes l) _

/-- C9: for distinct endpoint identifiers supplied in either order, the
constructed pipe satisfies `endpointA < endpointB` in the total order on node
identifiers; construction with the arguments swapped yields the same
canonical endpoints; `Name()` returns `"endpointA-endpointB"`; and the
endpoints are preserved by the operations that mutate a pipe (the solver's
flow write and `V()`). -/
theorem C9_canonical_endpoints (s t : String) (L D r : ℚ) (fl : Fluid) (h : s ≠ t) :
    (mkPipe s t L D r fl).startNode < (mkPipe s t L D r fl).endNode ∧
    (mkPipe t s L D r fl).startNode = (mkPipe s t L D r fl).startNode ∧
    (mkPipe t s L D r fl).endNode = (mkPipe s t L D r fl).endNode ∧
    Pipe.Name (mkPipe s t L D r fl) =
      (mkPipe s t L D r fl).startNode ++ "-" ++ (mkPipe s t L D r fl).endNode ∧
    (∀ q : ℚ,
      ({ mkPipe s t L D r fl with Q := q }).startNode = (mkPipe s t L D r fl).startNode ∧
      ({ mkPipe s t L D r fl with Q := q }).endNode = (mkPipe s t L D r fl).endNode) ∧
    (Pipe.V (mkPipe s t L D r fl)).2.startNode = (mkPipe s t L D r fl).startNode ∧
    (Pipe.V (mkPipe s t L D r fl)).2.endNode = (mkPipe s t L D r fl).endNode := by
  have hs : (mkPipe s t L D r fl).startNode = pyMin s t := rfl
  have he : (mkPipe s t L D r fl).endNode = pyMax s t := rfl
  have hs2 : (mkPipe t s L D r fl).startNode = pyMin t s := rfl
  have he2 : (mkPipe t s L D r fl).endNode = pyMax t s := rfl
  refine ⟨?_, ?_, ?_, rfl, fun q => ⟨rfl, rfl⟩, rfl, rfl⟩
  · rw [hs, he]
    exact pyMin_lt_pyMax s t h
  · rw [hs, hs2, pyMin_comm]
  · rw [he, he2, pyMax_comm]

/-- Witness for C9 at the spec's own example `("b","a")`. -/
theorem C9_canonical_endpoints_witness :
    ("b" : String) ≠ "a" ∧
    (mkPipe "b" "a" 100 200 (1 / 4000) defaultFluid).startNode = "a" ∧
    (mkPipe "b" "a" 100 200 (1 / 4000) defaultFluid).endNode = "b" ∧
    Pipe.Name (mkPipe "b" "a" 100 200 (1 / 4000) defaultFluid) = "a-b" ∧
    ((mkPipe "b" "a" 100 200 (1 / 4000) defaultFluid).startNode <
        (mkPipe "b" "a" 100 200 (1 / 4000) defaultFluid).endNode ∧
      (mkPipe "a" "b" 100 200 (1 / 4000) defaultFluid).startNode =
        (mkPipe "b" "a" 100 200 (1 / 4000) defaultFluid).startNode ∧
      (mkPipe "a" "b" 100 200 (1 / 4000) defaultFluid).endNode =
        (mkPipe "b" "a" 100 200 (1 / 4000) defaultFluid).endNode ∧
      Pipe.Name (mkPipe "b" "a" 100 200 (1 / 4000) defaultFluid) =
        (mkPipe "b" "a" 100 200 (1 / 4000) defaultFluid).startNode ++ "-" ++
          (mkPipe "b" "a" 100 200 (1 / 4000) defaultFluid).endNode ∧
      (∀ q : ℚ,
        ({ mkPipe "b" "a" 100 200 (1 / 4000) defaultFluid with Q := q }).startNode =
          (mkPipe "b" "a" 100 200 (1 / 4000) defaultFluid).startNode ∧
        ({ mkPipe "b" "a" 100 200 (1 / 4000) defaultFluid with Q := q }).endNode =
          (mkPipe "b" "a" 100 200 (1 / 4000) defaultFluid).endNode) ∧
      (Pipe.V (mkPipe "b" "a" 100 200 (1 / 4000) defaultFluid)).2.startNode =
        (mkPipe "b" "a" 100 200 (1 / 4000) defaultFluid).startNode ∧
      (Pipe.V (mkPipe "b" "a" 100 200 (1 / 4000) defaultFluid)).2.endNode =
        (mkPipe "b" "a" 100 200 (1 / 4000) defaultFluid).endNode) :=
  ⟨by decide, by decide, by decide, by decide,
    C9_canonical_endpoints "b" "a" 100 200 (1 / 4000) defaultFluid (by decide)⟩

/-- C4: `FrictionFactor()` implements the three-regime policy: for
`Re ≥ 4000` it returns the Colebrook-White root obtained by the numerical
solve started at `f₀ = 0.01` (modelled by `env.colebrook`); for `Re ≤ 2000`
it returns `64/Re` — exactly `0.032` at `Re = 2000`; for `2000 < Re < 4000`
it returns the normal draw with mean `f_lam + ((Re−2000)/2000)·(f_turb−f_lam)`
and standard deviation `0.2` times that mean. -/
theorem C4_friction_regimes (env : NumEnv) (p : Pipe) :
    (Pipe.Re p ≥ 4000 →
      Pipe.FrictionFactor env p = env.colebrook (p.r / p.diameter) (Pipe.Re p)) ∧
    (Pipe.Re p ≤ 2000 → Pipe.FrictionFactor env p = 64 / Pipe.Re p) ∧
    (Pipe.Re p = 2000 → Pipe.FrictionFactor env p = 32 / 1000) ∧
    (2000 < Pipe.Re p → Pipe.Re p < 4000 →
      Pipe.FrictionFactor env p =
        env.normalSample
          (64 / Pipe.Re p +
            ((Pipe.Re p - 2000) / 2000) *
              (env.colebrook (p.r / p.diameter) (Pipe.Re p) - 64 / Pipe.Re p))
          (1 / 5 *
            (64 / Pipe.Re p +
              ((Pipe.Re p - 2000) / 2000) *
                (env.colebrook (p.r / p.diameter) (Pipe.Re p) - 64 / Pipe.Re p)))) := by
  refine ⟨fun h => ?_, fun h => ?_, fun h => ?_, fun h1 h2 => ?_⟩
  · simp only [Pipe.FrictionFactor]
    rw [if_pos h]
  · simp only [Pipe.FrictionFactor]
    rw [if_neg (not_le.mpr (lt_of_le_of_lt h (by norm_num))), if_pos h]
  · simp only [Pipe.FrictionFactor]
    rw [if_neg (by rw [ge_iff_le, h]; norm_num), if_pos (le_of_eq h), h]
    norm_num
  · simp only [Pipe.FrictionFactor]
    rw [if_neg (not_le.mpr h2), if_neg (not_le.mpr h1)]
    norm_num

/-- Witness for C4: one concrete pipe per regime — `pDef` (turbulent,
`Re ≈ 71530`), `pLam` (`Re = 2000` exactly), `pTrans` (`Re ≈ 3183`). -/
theorem C4_friction_regimes_witness :
    (Pipe.Re pDef ≥ 4000 ∧
      Pipe.FrictionFactor envDet pDef = envDet.colebrook (pDef.r / pDef.diameter) (Pipe.Re pDef)) ∧
    (Pipe.Re pLam = 2000 ∧ Pipe.FrictionFactor envDet pLam = 32 / 1000) ∧
    (2000 < Pipe.Re pTrans ∧ Pipe.Re pTrans < 4000 ∧
      Pipe.FrictionFactor envDet pTrans =
        envDet.normalSample
          (64 / Pipe.Re pTrans +
            ((Pipe.Re pTrans - 2000) / 2000) *
              (envDet.colebrook (pTrans.r / pTrans.diameter) (Pipe.Re pTrans) - 64 / Pipe.Re pTrans))
          (1 / 5 *
            (64 / Pipe.Re pTrans +
              ((Pipe.Re pTrans - 2000) / 2000) *
                (envDet.colebrook (pTrans.r / pTrans.diameter) (Pipe.Re pTrans) -
                  64 / Pipe.Re pTrans)))) := by
  have hT : Pipe.Re pDef ≥ 4000 := by
    norm_num [Pipe.Re, pDef, mkPipe, Pipe.V, piQ, defaultFluid, mkFluid]
  have hL : Pipe.Re pLam = 2000 := by
    norm_num [Pipe.Re, pLam, mkPipe, Pipe.V, piQ, fluidLam, mkFluid]
  have h1 : 2000 < Pipe.Re pTrans := by
    norm_num [Pipe.Re, pTrans, mkPipe, Pipe.V, piQ, fluidTrans, mkFluid]
  have h2 : Pipe.Re pTrans < 4000 := by
    norm_num [Pipe.Re, pTrans, mkPipe, Pipe.V, piQ, fluidTrans, mkFluid]
  exact ⟨⟨hT, (C4_friction_regimes envDet pDef).1 hT⟩,
    ⟨hL, (C4_friction_regimes envDet pLam).2.2.1 hL⟩,
    ⟨h1, h2, (C4_friction_regimes envDet pTrans).2.2.2 h1 h2⟩⟩

/-- C1: whenever the flow vector resident in the pipes makes every component
of the solver's residual `fn` smaller than the tolerance in absolute value
(i.e. the solve converged on it), every node's `getNetFlowRate()` and every
loop's `getLoopHeadLoss()` evaluated on that resident state are within
tolerance; moreover the residual vector is exactly all node balances followed
by all loop closures. -/
theorem C1_converged_residuals (env : NumEnv) (net : PipeNetwork) (q : List ℚ) (tol : ℚ)
    (h : ∀ x ∈ PipeNetwork.fn env net q, |x| < tol) :
    (∀ n ∈ net.nodes, |Node.getNetFlowRate (setFlows net.pipes q) n| < tol) ∧
    (∀ l ∈ net.loops, |Loop.getLoopHeadLoss env (setFlows net.pipes q) l| < tol) ∧
    PipeNetwork.fn env net q =
      net.nodes.map (Node.getNetFlowRate (setFlows net.pipes q)) ++
        net.loops.map (Loop.getLoopHeadLoss env (setFlows net.pipes q)) := by
  refine ⟨fun n hn => h _ ?_, fun l hl => h _ ?_, rfl⟩
  · show _ ∈ PipeNetwork.fn env net q
    simp only [PipeNetwork.fn, PipeNetwork.getNodeFlowRates, PipeNetwork.getLoopHeadLosses]
    exact List.mem_append_left _ (List.mem_map_of_mem _ hn)
  · show _ ∈ PipeNetwork.fn env net q
    simp only [PipeNetwork.fn, PipeNetwork.getNodeFlowRates, PipeNetwork.getLoopHeadLosses]
    exact List.mem_append_right _ (List.mem_map_of_mem _ hl)

/-- Witness for C1: on `netLoop` the resident vector `[10, 10, 10]` gives the
residual `[0, 0, 0]`, within tolerance `1`. -/
theorem C1_converged_residuals_witness :
    (∀ x ∈ PipeNetwork.fn envDet netLoop [10, 10, 10], |x| < 1) ∧
    ((∀ n ∈ netLoop.nodes, |Node.getNetFlowRate (setFlows netLoop.pipes [10, 10, 10]) n| < 1) ∧
      (∀ l ∈ netLoop.loops,
        |Loop.getLoopHeadLoss envDet (setFlows netLoop.pipes [10, 10, 10]) l| < 1) ∧
      PipeNetwork.fn envDet netLoop [10, 10, 10] =
        netLoop.nodes.map (Node.getNetFlowRate (setFlows netLoop.pipes [10, 10, 10])) ++
          netLoop.loops.map (Loop.getLoopHeadLoss envDet (setFlows netLoop.pipes [10, 10, 10]))) := by
  have hfn : PipeNetwork.fn envDet netLoop [10, 10, 10] = [0, 0, 0] := by
    norm_num +decide [PipeNetwork.fn, PipeNetwork.getNodeFlowRates, PipeNetwork.getLoopHeadLosses,
      netLoop, setFlows, Node.getNetFlowRate, Pipe.getFlowIntoNode, Loop.getLoopHeadLoss,
      loopPipes, lhlAux, Pipe.getFlowHeadLoss, Pipe.frictionHeadLoss, Pipe.FrictionFactor,
      Pipe.Re, pDef, mkPipe, Pipe.V, piQ, defaultFluid, mkFluid, envDet, pyMin, pyMax, strLtb]
  have h : ∀ x ∈ PipeNetwork.fn envDet netLoop [10, 10, 10], |x| < 1 := by
    rw [hfn]
    intro x hx
    simp only [List.mem_cons, List.not_mem_nil, or_false] at hx
    rcases hx with rfl | rfl | rfl <;> norm_num
  exact ⟨h, C1_converged_residuals envDet netLoop [10, 10, 10] 1 h⟩

/-- C2 (code bug): evaluating the embedded code at a trial flow written by the
solver shows the velocity and Reynolds number used for friction and head loss
are the values cached at construction (flow `10`), not recomputed from the
newly written `currentFlow = 20`: the written pipe's `vel` equals the old
cached velocity, differs from `Q/1000/A`, its `Re()` is unchanged by the
write, and its head loss uses the stale velocity. -/
theorem C2_stale_velocity_eval :
    setFlows [pDef] [20] = [p20] ∧
    p20.Q = 20 ∧
    p20.vel = pDef.vel ∧
    p20.vel ≠ p20.Q / 1000 / p20.A ∧
    Pipe.Re p20 = Pipe.Re pDef ∧
    Pipe.Re p20 ≠ p20.fluid.rho * (p20.Q / 1000 / p20.A) * p20.diameter / p20.fluid.mu ∧
    Pipe.frictionHeadLoss envDet p20 =
      Pipe.FrictionFactor envDet p20 * p20.length / p20.diameter *
        (pDef.vel ^ 2 / (2 * (981 / 100))) := by
  refine ⟨rfl, rfl, rfl, ?_, rfl, ?_, rfl⟩
  · norm_num [p20, pDef, mkPipe, Pipe.V, piQ, defaultFluid, mkFluid]
  · norm_num [Pipe.Re, p20, pDef, mkPipe, Pipe.V, piQ, defaultFluid, mkFluid]

/-- C3 (counterexample): the residual evaluation used during solver iteration
depends on the random draw.  For the transition-regime pipe `pTrans`
(`2000 < Re < 4000`), under two environments that agree on every external
routine except the `normalvariate` stream, the friction factor differs from
the deterministic blended mean and the residual vectors of the two executions
differ — refuting that iteration uses the deterministic mean and that two
executions are bit-identical with one sample drawn only at reporting time. -/
theorem C3_counterexample_rng_dependence :
    2000 < Pipe.Re pTrans ∧ Pipe.Re pTrans < 4000 ∧
    envDet.colebrook = envRand.colebrook ∧
    envDet.colebrookConverged = envRand.colebrookConverged ∧
    envDet.fsolve = envRand.fsolve ∧
    Pipe.FrictionFactor envRand pTrans ≠
      64 / Pipe.Re pTrans +
        ((Pipe.Re pTrans - 2000) / 2000) *
          (envRand.colebrook (pTrans.r / pTrans.diameter) (Pipe.Re pTrans) -
            64 / Pipe.Re pTrans) ∧
    PipeNetwork.fn envDet netTrans [10] ≠ PipeNetwork.fn envRand netTrans [10] := by
  refine ⟨?_, ?_, rfl, rfl, rfl, ?_, ?_⟩
  · norm_num [Pipe.Re, pTrans, mkPipe, Pipe.V, piQ, fluidTrans, mkFluid]
  · norm_num [Pipe.Re, pTrans, mkPipe, Pipe.V, piQ, fluidTrans, mkFluid]
  · norm_num +decide [Pipe.FrictionFactor, Pipe.Re, pTrans, mkPipe, Pipe.V, piQ, fluidTrans,
      mkFluid, envRand, envDet]
  · norm_num +decide [PipeNetwork.fn, PipeNetwork.getNodeFlowRates, PipeNetwork.getLoopHeadLosses,
      netTrans, setFlows, Node.getNetFlowRate, Pipe.getFlowIntoNode, Loop.getLoopHeadLoss,
      loopPipes, lhlAux, Pipe.getFlowHeadLoss, Pipe.frictionHeadLoss, Pipe.FrictionFactor,
      Pipe.Re, pTrans, mkPipe, Pipe.V, piQ, fluidTrans, mkFluid, envDet, envRand, pyMin, pyMax,
      strLtb]

/-- C3 (amended): during solver iteration a transition-regime pipe's friction
factor is a fresh `normalvariate` draw on every head-loss evaluation (mean =
blended value, σ = mean/5), so the residual — and hence the solve — depends
on the random stream; no separate reporting-time-only sample exists. -/
theorem C3_amended_sample_every_evaluation (env : NumEnv) (p : Pipe)
    (h1 : 2000 < Pipe.Re p) (h2 : Pipe.Re p < 4000) :
    Pipe.frictionHeadLoss env p =
      env.normalSample
        (64 / Pipe.Re p +
          ((Pipe.Re p - 2000) / 2000) *
            (env.colebrook (p.r / p.diameter) (Pipe.Re p) - 64 / Pipe.Re p))
        (1 / 5 *
          (64 / Pipe.Re p +
            ((Pipe.Re p - 2000) / 2000) *
              (env.colebrook (p.r / p.diameter) (Pipe.Re p) - 64 / Pipe.Re p))) *
        p.length / p.diameter * (p.vel ^ 2 / (2 * (981 / 100))) := by
  simp only [Pipe.frictionHeadLoss, Pipe.FrictionFactor]
  rw [if_neg (not_le.mpr h2), if_neg (not_le.mpr h1)]
  norm_num

/-- Witness for the amended C3 at `pTrans` under the `envRand` stream. -/
theorem C3_amended_sample_every_evaluation_witness :
    2000 < Pipe.Re pTrans ∧ Pipe.Re pTrans < 4000 ∧
    Pipe.frictionHeadLoss envRand pTrans =
      envRand.normalSample
        (64 / Pipe.Re pTrans +
          ((Pipe.Re pTrans - 2000) / 2000) *
            (envRand.colebrook (pTrans.r / pTrans.diameter) (Pipe.Re pTrans) -
              64 / Pipe.Re pTrans))
        (1 / 5 *
          (64 / Pipe.Re pTrans +
            ((Pipe.Re pTrans - 2000) / 2000) *
              (envRand.colebrook (pTrans.r / pTrans.diameter) (Pipe.Re pTrans) -
                64 / Pipe.Re pTrans))) *
        pTrans.length / pTrans.diameter * (pTrans.vel ^ 2 / (2 * (981 / 100))) := by
  have h1 : 2000 < Pipe.Re pTrans := by
    norm_num [Pipe.Re, pTrans, mkPipe, Pipe.V, piQ, fluidTrans, mkFluid]
  have h2 : Pipe.Re pTrans < 4000 := by
    norm_num [Pipe.Re, pTrans, mkPipe, Pipe.V, piQ, fluidTrans, mkFluid]
  exact ⟨h1, h2, C3_amended_sample_every_evaluation envRand pTrans h1 h2⟩

/-- C6 (counterexample): with reversed flow `-10` written and the velocity
recomputed by `V()`, `Re()` returns a negative value computed from the signed
velocity, not `rho * |v| * d / mu` — refuting that the Reynolds number uses
the flow magnitude and is nonnegative. -/
theorem C6_counterexample_negative_reynolds :
    pNeg.Q = -10 ∧ pNeg.vel < 0 ∧ Pipe.Re pNeg < 0 ∧
    Pipe.Re pNeg ≠ pNeg.fluid.rho * |pNeg.vel| * pNeg.diameter / pNeg.fluid.mu := by
  have hv : pNeg.vel < 0 := by
    norm_num [pNeg, pDef, mkPipe, Pipe.V, piQ, defaultFluid, mkFluid]
  refine ⟨rfl, hv, ?_, ?_⟩
  · norm_num [Pipe.Re, pNeg, pDef, mkPipe, Pipe.V, piQ, defaultFluid, mkFluid]
  · rw [abs_of_neg hv]
    norm_num [Pipe.Re, pNeg, pDef, mkPipe, Pipe.V, piQ, defaultFluid, mkFluid]

/-- C6 (amended): `Re()` returns `rho * vel * d / mu` with the *signed*
cached velocity; under reversed flow (negative velocity, positive fluid
properties and diameter) the returned Reynolds number is negative. -/
theorem C6_amended_signed_reynolds (p : Pipe) (h1 : p.vel < 0) (h2 : 0 < p.fluid.rho)
    (h3 : 0 < p.fluid.mu) (h4 : 0 < p.diameter) :
    Pipe.Re p = p.fluid.rho * p.vel * p.diameter / p.fluid.mu ∧ Pipe.Re p < 0 := by
  refine ⟨rfl, ?_⟩
  unfold Pipe.Re
  exact div_neg_of_neg_of_pos (mul_neg_of_neg_of_pos (mul_neg_of_pos_of_neg h2 h1) h4) h3

/-- Witness for the amended C6 at the reversed-flow pipe `pNeg`. -/
theorem C6_amended_signed_reynolds_witness :
    pNeg.vel < 0 ∧ 0 < pNeg.fluid.rho ∧ 0 < pNeg.fluid.mu ∧ 0 < pNeg.diameter ∧
    (Pipe.Re pNeg = pNeg.fluid.rho * pNeg.vel * pNeg.diameter / pNeg.fluid.mu ∧
      Pipe.Re pNeg < 0) := by
  have h1 : pNeg.vel < 0 := by
    norm_num [pNeg, pDef, mkPipe, Pipe.V, piQ, defaultFluid, mkFluid]
  have h2 : 0 < pNeg.fluid.rho := by
    norm_num [pNeg, pDef, mkPipe, Pipe.V, defaultFluid, mkFluid]
  have h3 : 0 < pNeg.fluid.mu := by
    norm_num [pNeg, pDef, mkPipe, Pipe.V, defaultFluid, mkFluid]
  have h4 : 0 < pNeg.diameter := by
    norm_num [pNeg, pDef, mkPipe, Pipe.V]
  exact ⟨h1, h2, h3, h4, C6_amended_signed_reynolds pNeg h1 h2 h3 h4⟩

/-- C7 (counterexample): when the Colebrook root-solve fails to converge
(`envFail`, unconverged iterate `100`), `FrictionFactor()` on the turbulent
pipe `pDef` returns the unconverged value `100` unchanged, not the laminar
closed-form estimate `64/Re` — refuting the claimed laminar fallback. -/
theorem C7_counterexample_no_laminar_fallback :
    Pipe.Re pDef ≥ 4000 ∧
    envFail.colebrookConverged (pDef.r / pDef.diameter) (Pipe.Re pDef) = false ∧
    Pipe.FrictionFactor envFail pDef = 100 ∧
    Pipe.FrictionFactor envFail pDef ≠ 64 / Pipe.Re pDef := by
  have hT : Pipe.Re pDef ≥ 4000 := by
    norm_num [Pipe.Re, pDef, mkPipe, Pipe.V, piQ, defaultFluid, mkFluid]
  have hF : Pipe.FrictionFactor envFail pDef = 100 := by
    simp only [Pipe.FrictionFactor]
    rw [if_pos hT]
    rfl
  refine ⟨hT, rfl, hF, ?_⟩
  rw [hF]
  norm_num [Pipe.Re, pDef, mkPipe, Pipe.V, piQ, defaultFluid, mkFluid]

/-- C7 (amended): `FrictionFactor()` never inspects the root solver's
convergence status — its value is a function of the Colebrook result and the
random draw alone — and it records nothing; a negative Reynolds number falls
into the laminar branch and yields the negative value `64/Re` rather than an
error or fallback. -/
theorem C7_amended_no_failure_handling (env env2 : NumEnv) (p : Pipe)
    (hc : env.colebrook = env2.colebrook) (hn : env.normalSample = env2.normalSample) :
    Pipe.FrictionFactor env p = Pipe.FrictionFactor env2 p ∧
    (Pipe.Re p < 0 →
      Pipe.FrictionFactor env p = 64 / Pipe.Re p ∧ Pipe.FrictionFactor env p < 0) := by
  constructor
  · simp only [Pipe.FrictionFactor, hc, hn]
  · intro h
    have hne : ¬ Pipe.Re p ≥ 4000 := not_le.mpr (lt_trans h (by norm_num))
    have hle : Pipe.Re p ≤ 2000 := le_of_lt (lt_trans h (by norm_num))
    have hval : Pipe.FrictionFactor env p = 64 / Pipe.Re p := by
      simp only [Pipe.FrictionFactor]
      rw [if_neg hne, if_pos hle]
    refine ⟨hval, ?_⟩
    rw [hval]
    exact div_neg_of_pos_of_neg (by norm_num) h

/-- Witness for the amended C7: flipping only the (unread) convergence flag
leaves the friction factor unchanged, and at the negative-Reynolds pipe
`pNeg` the laminar branch yields a negative value. -/
theorem C7_amended_no_failure_handling_witness :
    envDet.colebrook = envDetNoConv.colebrook ∧
    envDet.normalSample = envDetNoConv.normalSample ∧
    Pipe.Re pNeg < 0 ∧
    (Pipe.FrictionFactor envDet pNeg = Pipe.FrictionFactor envDetNoConv pNeg ∧
      (Pipe.Re pNeg < 0 →
        Pipe.FrictionFactor envDet pNeg = 64 / Pipe.Re pNeg ∧
          Pipe.FrictionFactor envDet pNeg < 0)) := by
  have h : Pipe.Re pNeg < 0 := by
    norm_num [Pipe.Re, pNeg, pDef, mkPipe, Pipe.V, piQ, defaultFluid, mkFluid]
  exact ⟨rfl, rfl, h, C7_amended_no_failure_handling envDet envDetNoConv pNeg rfl rfl⟩

/-- C8 (counterexample): on the mismatched network `netMis` (1 pipe versus
2 nodes + 0 loops) `findFlowRates` reports no error at all: it proceeds to
the root-finder, which evaluates the residual normally and returns. -/
theorem C8_counterexample_no_config_check :
    netMis.pipes.length ≠ netMis.nodes.length + netMis.loops.length ∧
    PipeNetwork.findFlowRates envDet netMis = [0, 0] := by
  refine ⟨by decide, ?_⟩
  norm_num +decide [PipeNetwork.findFlowRates, PipeNetwork.fn, PipeNetwork.getNodeFlowRates,
    PipeNetwork.getLoopHeadLosses, netMis, setFlows, Node.getNetFlowRate, Pipe.getFlowIntoNode,
    pDef, mkPipe, Pipe.V, piQ, defaultFluid, mkFluid, envDet, pyMin, pyMax, strLtb,
    List.replicate]

/-- C8 (amended): `findFlowRates` performs no configuration validation: even
when the pipe count differs from node count + loop count it unconditionally
hands the residual function and the `(nodes+loops)`-dimensional uniform
initial guess to the root-finder. -/
theorem C8_amended_unconditional_solve (env : NumEnv) (net : PipeNetwork)
    (_h : net.pipes.length ≠ net.nodes.length + net.loops.length) :
    PipeNetwork.findFlowRates env net =
      env.fsolve (PipeNetwork.fn env net)
        (List.replicate (net.nodes.length + net.loops.length) 10) := rfl

/-- Witness for the amended C8 at the concrete mismatched network. -/
theorem C8_amended_unconditional_solve_witness :
    netMis.pipes.length ≠ netMis.nodes.length + netMis.loops.length ∧
    PipeNetwork.findFlowRates envDet netMis =
      envDet.fsolve (PipeNetwork.fn envDet netMis)
        (List.replicate (netMis.nodes.length + netMis.loops.length) 10) :=
  ⟨by decide, C8_amended_unconditional_solve envDet netMis (by decide)⟩

/-- C10 (code bug): evaluating the Python default-argument semantics shows
default-constructed `Node`s (likewise `Loop`s and `PipeNetwork`s) share one
list object: both nodes' pipe references name the same cell, appending `5`
through the first node is observed through the second node's reference
(which saw `[]` beforehand), and the same holds for loops and networks. -/
theorem C10_shared_default_collections_eval :
    (NodeObj.mkDefault "a").pipesCell = (NodeObj.mkDefault "b").pipesCell ∧
    readCell emptyStore ((NodeObj.mkDefault "b").pipesCell) = [] ∧
    readCell (appendCell emptyStore (NodeObj.mkDefault "a").pipesCell 5)
      ((NodeObj.mkDefault "b").pipesCell) = [5] ∧
    (LoopObj.mkDefault "A").pipesCell = (LoopObj.mkDefault "B").pipesCell ∧
    readCell (appendCell emptyStore (LoopObj.mkDefault "A").pipesCell 3)
      ((LoopObj.mkDefault "B").pipesCell) = [3] ∧
    readCell (appendCell emptyStore NetObj.mkDefault.pipesCell 7)
      NetObj.mkDefault.pipesCell = [7] := by
  exact ⟨rfl, rfl, rfl, rfl, rfl, rfl⟩

end HW6
